import Mathlib

/-!
Verification development for the RapidRed emergency blood-donation
coordinator.  The donor matching and ranking engine (`matching.py`) and the
request lifecycle handlers (`app.py`) are embedded shallowly: Python strings
become `String`/`List Char`, floats become `Rat`, nullable columns become
`Option`, and ambient time (`datetime.utcnow()`, `date.today()`) becomes an
explicit parameter.  The transcendental haversine computation is abstracted
into a distance-function parameter; every structural property of the ranking
engine is proved for an arbitrary distance function.
-/

namespace RapidRed

/-! ## Python string primitives used by `canonical_blood` (matching.py) -/

/-- ASCII uppercase, as Python `str.upper` acts on the ASCII inputs this code
receives for blood groups. -/
def pyToUpper (c : Char) : Char :=
  if 'a' ≤ c ∧ c ≤ 'z' then Char.ofNat (c.toNat - 32) else c

/-- Python whitespace class `\s` over ASCII: space, tab, newline, carriage
return, vertical tab, form feed. -/
def pyIsSpace (c : Char) : Bool :=
  c = ' ' || c = Char.ofNat 9 || c = Char.ofNat 10 || c = Char.ofNat 13 ||
  c = Char.ofNat 11 || c = Char.ofNat 12

/-- Python `str.strip`: drop leading and trailing whitespace. -/
def pyStrip (s : List Char) : List Char :=
  ((s.dropWhile pyIsSpace).reverse.dropWhile pyIsSpace).reverse

/-- `re.sub(r'\s+', '', s)`: every whitespace run is replaced by nothing,
i.e. all whitespace characters are removed. -/
def stripAllWs (s : List Char) : List Char :=
  s.filter (fun c => !(pyIsSpace c))

/-- Fuel-indexed worker for Python `str.replace`: leftmost non-overlapping
occurrences of `pat` are replaced by `repl`.  Structural recursion on the
fuel so that the kernel can evaluate concrete calls. -/
def replaceAllFuel (pat repl : List Char) : Nat → List Char → List Char
  | 0, s => s
  | Nat.succ fuel, s =>
    match s with
    | [] => []
    | c :: cs =>
      if pat ≠ [] ∧ pat.isPrefixOf (c :: cs) then
        repl ++ replaceAllFuel pat repl fuel ((c :: cs).drop pat.length)
      else
        c :: replaceAllFuel pat repl fuel cs

/-- Python `s.replace(pat, repl)`; `s.length` steps of fuel suffice because
every step consumes at least one character of the remaining input. -/
def replaceAll (pat repl s : List Char) : List Char :=
  replaceAllFuel pat repl s.length s

/-- `canonical_blood` from matching.py: `None` for falsy (empty) input, else
upper-case, strip, remove all whitespace, then rewrite the loose suffix
spellings `POS`, `NEG`, `+VE`, `-VE`, `OPOS`, `ONEG` in that order.  The
result is returned as-is, whatever string remains. -/
def canonical_blood (bg : String) : Option String :=
  if bg = "" then none
  else
    let s0 := stripAllWs (pyStrip (bg.data.map pyToUpper))
    let s1 := replaceAll "POS".data "+".data s0
    let s2 := replaceAll "NEG".data "-".data s1
    let s3 := replaceAll "+VE".data "+".data s2
    let s4 := replaceAll "-VE".data "-".data s3
    let s5 := replaceAll "OPOS".data "O+".data s4
    let s6 := replaceAll "ONEG".data "O-".data s5
    some (String.mk s6)

/-- The eight canonical blood groups. -/
def canonicalGroups : List String :=
  ["O-", "O+", "A-", "A+", "B-", "B+", "AB-", "AB+"]

/-- The `COMPATIBILITY` dict of matching.py, as a partial map from requested
group to permitted donor groups. -/
def COMPATIBILITY (g : String) : Option (List String) :=
  if g = "O-" then some ["O-"]
  else if g = "O+" then some ["O-", "O+"]
  else if g = "A-" then some ["O-", "A-"]
  else if g = "A+" then some ["O-", "O+", "A-", "A+"]
  else if g = "B-" then some ["O-", "B-"]
  else if g = "B+" then some ["O-", "O+", "B-", "B+"]
  else if g = "AB-" then some ["O-", "A-", "B-", "AB-"]
  else if g = "AB+" then some ["O-", "O+", "A-", "A+", "B-", "B+", "AB-", "AB+"]
  else none

/-- `COMPATIBILITY.get(req_canon, [req_canon])` as used by
`find_best_donors`. -/
def compatible_groups (g : String) : List String :=
  (COMPATIBILITY g).getD [g]

/-! ## Dates, donors and the eligibility filter (matching.py `is_eligible`) -/

/-- A Python `datetime.date`, by its fields; only field comparisons and the
day-difference of dates are used, the latter modelled through epoch-day
integers passed alongside. -/
structure PyDate where
  year : Int
  month : Int
  day : Int
deriving DecidableEq, Repr

/-- Python tuple comparison `(tm, td) < (dm, dd)` used in the age
computation. -/
def monthDayLt (tm td dm dd : Int) : Bool :=
  decide (tm < dm ∨ (tm = dm ∧ td < dd))

/-- Age derivation `today.year - dob.year - ((today.month, today.day) <
(dob.month, dob.day))`, as in both matching.py and app.py. -/
def compute_age (today dob : PyDate) : Int :=
  today.year - dob.year -
    (if monthDayLt today.month today.day dob.month dob.day then 1 else 0)

/-- The `Donor` row (models.py), restricted to the columns the matching
engine and the lifecycle handlers read.  `last_donation_date` is carried as
epoch days so the `(utcnow().date() - last_donation_date).days` subtraction
is integer subtraction. -/
structure Donor where
  id : Nat
  blood_group : String
  latitude : Option Rat
  longitude : Option Rat
  last_donation_date : Option Int
  is_available : Bool
  is_online : Bool
  dob : Option PyDate
  age : Option Int
  weight_kg : Option Rat
  health_clearance : Bool
  consent : Bool
deriving DecidableEq, Repr

/-- `is_eligible` from matching.py.  The ambient `date.today()` /
`datetime.utcnow().date()` become the parameters `today` and
`todayEpochDays`.  Note the source checks only availability, weight, age,
and donation recency — it reads neither `consent` nor `health_clearance`. -/
def is_eligible (today : PyDate) (todayEpochDays : Int) (d : Donor)
    (min_days : Int) (min_weight : Rat) (min_age : Int) (max_age : Int) : Bool :=
  if !d.is_available then false
  else if (match d.weight_kg with
           | none => true
           | some w => decide (w < min_weight)) then false
  else
    let donor_age : Option Int :=
      match d.age, d.dob with
      | none, some dob => some (compute_age today dob)
      | a, _ => a
    if (match donor_age with
        | none => true
        | some a => decide (a < min_age) || decide (a > max_age)) then false
    else
      match d.last_donation_date with
      | some ld => if todayEpochDays - ld < min_days then false else true
      | none => true

/-! ## The ranking engine (matching.py `find_best_donors`)

`haversine_distance` is a float computation through `sin`, `cos`, `atan2`
and `sqrt`; it is abstracted into a distance-function parameter `distf`, so
every property below holds for an arbitrary distance function, in
particular for the haversine one.  Float literals `0.1` and `1.3` become
the rationals they denote. -/

/-- Exact-rational model of float addition, in the kernel-computable
`Rat.divInt` form; `pyAdd_eq` shows it is rational addition. -/
def pyAdd (a b : Rat) : Rat :=
  Rat.divInt (a.num * b.den + b.num * a.den) (a.den * b.den)

/-- Exact-rational model of float multiplication; `pyMul_eq` shows it is
rational multiplication. -/
def pyMul (a b : Rat) : Rat :=
  Rat.divInt (a.num * b.num) (a.den * b.den)

/-- Exact-rational model of float division; `pyDiv_eq` shows it is
rational division. -/
def pyDiv (a b : Rat) : Rat :=
  Rat.divInt (a.num * b.den) (a.den * b.num)

/-- The float literal `0.1`. -/
def pointOne : Rat := Rat.divInt 1 10

/-- The float literal `1.3`. -/
def onlineBonus : Rat := Rat.divInt 13 10

/-- One entry of the candidate list: the `(d, dist, score)` tuple. -/
structure Ranked where
  donor : Donor
  dist : Rat
  score : Rat
deriving DecidableEq, Repr

/-- Python `dbg not in compatible_groups` (negated): `None` is never a
member of a list of strings. -/
def inCompatible (dbg : Option String) (groups : List String) : Bool :=
  match dbg with
  | none => false
  | some b => groups.contains b

/-- The body of the candidate loop of `find_best_donors`: group
compatibility, eligibility (at its default thresholds 90/50.0/18/65),
non-null coordinates, the distance cut-off, and the score
`1/(dist + 0.1)` with a `1.3` online bonus. -/
def candidate_entry (distf : Rat → Rat → Rat → Rat → Rat) (today : PyDate)
    (todayEpochDays : Int) (compat : List String) (req_lat req_lon : Rat)
    (max_distance_km : Rat) (d : Donor) : Option Ranked :=
  if !(inCompatible (canonical_blood d.blood_group) compat) then none
  else if !(is_eligible today todayEpochDays d 90 50 18 65) then none
  else
    match d.latitude, d.longitude with
    | some dlat, some dlon =>
      let dist := distf req_lat req_lon dlat dlon
      if dist > max_distance_km then none
      else
        let base : Rat := pyDiv 1 (pyAdd dist pointOne)
        let score := if d.is_online then pyMul base onlineBonus else base
        some ⟨d, dist, score⟩
    | _, _ => none

/-- The candidate list of `find_best_donors` before sorting: the normalizer
guard (`if not req_canon: return []` catches both `None` and the empty
string), the `COMPATIBILITY.get` fallback, then the loop over the donor
table in order. -/
def rank_candidates (donors : List Donor) (distf : Rat → Rat → Rat → Rat → Rat)
    (today : PyDate) (todayEpochDays : Int) (required_group : String)
    (req_lat req_lon : Rat) (max_distance_km : Rat) : List Ranked :=
  match canonical_blood required_group with
  | none => []
  | some rc =>
    if rc = "" then []
    else
      donors.filterMap
        (candidate_entry distf today todayEpochDays (compatible_groups rc)
          req_lat req_lon max_distance_km)

/-- Insertion step of a stable descending sort on the score: the new
element goes before the first element whose score it matches or exceeds.
Earlier list elements are inserted last, so equal scores keep their
original relative order — exactly the contract of Python's stable
`list.sort(key=..., reverse=True)`. -/
def insertDesc (x : Ranked) : List Ranked → List Ranked
  | [] => [x]
  | y :: ys => if y.score ≤ x.score then x :: y :: ys else y :: insertDesc x ys

/-- Stable descending sort by score, modelling
`candidates.sort(key=lambda x: x[2], reverse=True)`. -/
def sortDesc : List Ranked → List Ranked
  | [] => []
  | x :: xs => insertDesc x (sortDesc xs)

/-- Python slice `l[:n]` for a possibly negative `n`: a nonnegative bound
takes a prefix, a negative bound drops `|n|` elements from the end
(clipping at zero). -/
def pySliceTo {α : Type} (n : Int) (l : List α) : List α :=
  if 0 ≤ n then l.take n.toNat
  else l.take (l.length - (-n).toNat)

/-- `find_best_donors` from matching.py: candidates, stable descending
sort by score, then the `[:max_results]` slice. -/
def find_best_donors (donors : List Donor) (distf : Rat → Rat → Rat → Rat → Rat)
    (today : PyDate) (todayEpochDays : Int) (required_group : String)
    (req_lat req_lon : Rat) (max_results : Int) (max_distance_km : Rat) :
    List Ranked :=
  pySliceTo max_results
    (sortDesc (rank_candidates donors distf today todayEpochDays required_group
      req_lat req_lon max_distance_km))

/-! ## Request lifecycle (app.py handlers)

Each handler is the state mutation it performs on the `BloodRequest` row,
with the web plumbing (session, flash, redirects, socket emits) stripped;
the `Bool` component reports whether the guarded mutation was applied or
the handler bailed out with its error flash. -/

/-- The `BloodRequest` row, restricted to the lifecycle fields.  `status`
is the literal string column; `assigned_at` is an abstract timestamp. -/
structure Request where
  status : String
  accepted_donor_id : Option Nat
  assigned_at : Option Nat
deriving DecidableEq, Repr

/-- Python truthiness of the nullable integer `accepted_donor_id` as used
by `if not br.accepted_donor_id` (both `None` and `0` are falsy; SQLite
row ids start at 1). -/
def optIdTruthy : Option Nat → Bool
  | none => false
  | some n => decide (n ≠ 0)

/-- Request creation in `request_blood`: a fresh OPEN row with no assigned
donor. -/
def create_request : Request :=
  { status := "OPEN", accepted_donor_id := none, assigned_at := none }

/-- `cancel_request` (app.py): sets the status to CANCELLED with no guard
and touches no other field. -/
def cancel_request (br : Request) : Request :=
  { br with status := "CANCELLED" }

/-- `accept_request` (app.py): only an OPEN request can be accepted; on
success the donor is recorded, the status becomes ACCEPTED and the
assignment timestamp is set; otherwise the handler flashes "Request not
open." and changes nothing. -/
def accept_request (br : Request) (donor_id : Nat) (now : Nat) :
    Request × Bool :=
  if br.status ≠ "OPEN" then (br, false)
  else ({ status := "ACCEPTED", accepted_donor_id := some donor_id,
          assigned_at := some now }, true)

/-- `cancel_assignment` (app.py): guarded on the named donor being the
assigned one; on success the assignment is cleared and the status returns
to OPEN. -/
def cancel_assignment (br : Request) (donor_id : Nat) : Request × Bool :=
  if br.accepted_donor_id ≠ some donor_id then (br, false)
  else ({ status := "OPEN", accepted_donor_id := none,
          assigned_at := none }, true)

/-- `hospital_mark_reached` (app.py): requires a truthy
`accepted_donor_id`, then sets the status to DONOR_REACHED. -/
def hospital_mark_reached (br : Request) : Request × Bool :=
  if !optIdTruthy br.accepted_donor_id then (br, false)
  else ({ br with status := "DONOR_REACHED" }, true)

/-- `hospital_mark_completed` (app.py): requires a truthy
`accepted_donor_id`, then sets the status to FULFILLED. -/
def hospital_mark_completed (br : Request) : Request × Bool :=
  if !optIdTruthy br.accepted_donor_id then (br, false)
  else ({ br with status := "FULFILLED" }, true)

/-- `hospital_reassign` (app.py): blocked for CANCELLED/FULFILLED
requests; in either case the request row itself is not mutated (the
handler only creates notifications). -/
def hospital_reassign (br : Request) : Request × Bool :=
  if br.status = "CANCELLED" ∨ br.status = "FULFILLED" then (br, false)
  else (br, true)

/-! ## Notifications and duplicate suppression (app.py)

A `Notification` row keeps its donor, request and type; payload, delivery
flag and timestamp play no role in the claims.  Every creation site in
app.py first queries for an existing row with the same `(donor_id,
request_id)` and inserts only if none exists; `add_if_absent` is that
check-then-insert step, and the notification state is the list of rows in
insertion order. -/

/-- A `Notification` row (models.py), restricted to the identifying
fields. -/
structure Notification where
  donor_id : Nat
  request_id : Nat
  notif_type : String
deriving DecidableEq, Repr

/-- The duplicate query `filter_by(donor_id=..., request_id=...)`: type is
not part of the key. -/
def sameTarget (m n : Notification) : Bool :=
  m.donor_id == n.donor_id && m.request_id == n.request_id

/-- Check-then-insert: add the row only when no row for the same (donor,
request) pair exists. -/
def add_if_absent (notifs : List Notification) (n : Notification) :
    List Notification :=
  if notifs.any (fun m => sameTarget m n) then notifs else notifs ++ [n]

/-- The notification loop shared by `request_blood`,
`cancel_assignment` (which additionally skips the donor whose assignment
was just cancelled) and `hospital_reassign`: walk the ranked donor ids in
order, deduplicating against the current table. -/
def notify_loop (req_id : Nat) (excluded : Option Nat) (ntype : String) :
    List Nat → List Notification → List Notification
  | [], notifs => notifs
  | did :: rest, notifs =>
    if excluded = some did then notify_loop req_id excluded ntype rest notifs
    else
      notify_loop req_id excluded ntype rest
        (add_if_absent notifs ⟨did, req_id, ntype⟩)

/-- Notification pass of `request_blood` over the ranked donor ids. -/
def request_blood_notify (req_id : Nat) (ranked : List Nat)
    (notifs : List Notification) : List Notification :=
  notify_loop req_id none "REQUEST" ranked notifs

/-- Notification pass of `cancel_assignment`, which skips the cancelled
donor. -/
def cancel_assignment_notify (req_id cancelled : Nat) (ranked : List Nat)
    (notifs : List Notification) : List Notification :=
  notify_loop req_id (some cancelled) "REQUEST" ranked notifs

/-- Notification pass of `hospital_reassign`. -/
def hospital_reassign_notify (req_id : Nat) (ranked : List Nat)
    (notifs : List Notification) : List Notification :=
  notify_loop req_id none "REQUEST" ranked notifs

/-- An OPEN `BloodRequest` as seen by the proximity scan. -/
structure OpenRequest where
  id : Nat
  latitude : Rat
  longitude : Rat
deriving DecidableEq, Repr

/-- The proximity notifier inside the `donor_share` handler: after the
donor's coordinates are updated to the pushed `(dlat, dlon)`, every OPEN
request with a resolvable donor blood group within 10 km gets a NEARBY
notification, deduplicated per (donor, request) pair. -/
def donor_share_notify (distf : Rat → Rat → Rat → Rat → Rat) (donor_id : Nat)
    (bg : String) (dlat dlon : Rat) (open_reqs : List OpenRequest)
    (notifs : List Notification) : List Notification :=
  open_reqs.foldl
    (fun acc br =>
      match canonical_blood bg with
      | none => acc
      | some _ =>
        let dist := distf br.latitude br.longitude dlat dlon
        if dist ≤ 10 then add_if_absent acc ⟨donor_id, br.id, "NEARBY"⟩
        else acc)
    notifs

/-- At most one notification row per (donor, request) pair. -/
def AtMostOnePerPair (notifs : List Notification) : Prop :=
  List.Pairwise
    (fun m n => ¬ (m.donor_id = n.donor_id ∧ m.request_id = n.request_id))
    notifs

/-- The documented invariant on a `BloodRequest`: a donor reference is held
only by requests in the ACCEPTED, DONOR_REACHED or FULFILLED state. -/
def RequestInv (br : Request) : Prop :=
  br.accepted_donor_id ≠ none →
    br.status = "ACCEPTED" ∨ br.status = "DONOR_REACHED" ∨
    br.status = "FULFILLED"

instance (br : Request) : Decidable (RequestInv br) := by
  unfold RequestInv
  infer_instance

/-! ## Concrete fixtures used by witnesses and counterexamples -/

/-- A distance function that reports 0 km for every pair of points. -/
def zeroDist : Rat → Rat → Rat → Rat → Rat := fun _ _ _ _ => 0

/-- A fixed evaluation date. -/
def refDate : PyDate := ⟨2026, 1, 1⟩

/-- An A+ donor at the origin who passes every check `is_eligible` makes,
but has withdrawn consent and has no health clearance. -/
def donorNoConsent : Donor :=
  { id := 1
    blood_group := "A+"
    latitude := some 0
    longitude := some 0
    last_donation_date := none
    is_available := true
    is_online := false
    dob := none
    age := some 30
    weight_kg := some 70
    health_clearance := false
    consent := false }

/-- A second eligible donor, with O- blood and consent given. -/
def donorUniversal : Donor :=
  { donorNoConsent with
    id := 2
    blood_group := "O-"
    health_clearance := true
    consent := true }

/-- An OPEN request with no assigned donor. -/
def openReq : Request :=
  { status := "OPEN", accepted_donor_id := none, assigned_at := none }

/-- An ACCEPTED request held by donor 1. -/
def acceptedReq : Request :=
  { status := "ACCEPTED", accepted_donor_id := some 1, assigned_at := some 5 }

/-- A FULFILLED request held by donor 1. -/
def fulfilledReq : Request :=
  { status := "FULFILLED", accepted_donor_id := some 1, assigned_at := some 5 }

/-! ## Helper lemmas -/

/-- The float-addition model is rational addition. -/
theorem pyAdd_eq (a b : Rat) : pyAdd a b = a + b := by
  rw [pyAdd, Rat.add_def', ← Int.natCast_mul, Rat.divInt_ofNat]

/-- The float-multiplication model is rational multiplication. -/
theorem pyMul_eq (a b : Rat) : pyMul a b = a * b := by
  rw [pyMul, Rat.mul_def, Rat.normalize_eq_mkRat, ← Int.natCast_mul,
    Rat.divInt_ofNat]

/-- The float-division model is rational division. -/
theorem pyDiv_eq (a b : Rat) : pyDiv a b = a / b :=
  (Rat.div_def' a b).symm

/-- Inserting into a list permutes consing onto it. -/
theorem insertDesc_perm (x : Ranked) (l : List Ranked) :
    (insertDesc x l).Perm (x :: l) := by
  induction l with
  | nil => simp [insertDesc]
  | cons y ys ih =>
    rw [insertDesc]
    split
    · exact List.Perm.refl _
    · exact (List.Perm.cons y ih).trans (List.Perm.swap x y ys)

/-- The stable sort permutes its input. -/
theorem sortDesc_perm (l : List Ranked) : (sortDesc l).Perm l := by
  induction l with
  | nil => exact List.Perm.refl _
  | cons x xs ih =>
    exact ((insertDesc_perm x (sortDesc xs)).trans (List.Perm.cons x ih))

/-- Membership in an insertion. -/
theorem mem_insertDesc {z x : Ranked} {l : List Ranked} :
    z ∈ insertDesc x l ↔ z = x ∨ z ∈ l := by
  rw [(insertDesc_perm x l).mem_iff, List.mem_cons]

/-- Insertion preserves being sorted by descending score. -/
theorem insertDesc_pairwise (x : Ranked) {l : List Ranked}
    (h : List.Pairwise (fun a b => b.score ≤ a.score) l) :
    List.Pairwise (fun a b => b.score ≤ a.score) (insertDesc x l) := by
  induction l with
  | nil => simp [insertDesc]
  | cons y ys ih =>
    rw [List.pairwise_cons] at h
    obtain ⟨hy, hys⟩ := h
    rw [insertDesc]
    split
    · rename_i hle
      rw [List.pairwise_cons]
      refine ⟨?_, List.pairwise_cons.mpr ⟨hy, hys⟩⟩
      intro z hz
      rcases List.mem_cons.mp hz with rfl | hz
      · exact hle
      · exact (hy z hz).trans hle
    · rename_i hgt
      rw [List.pairwise_cons]
      refine ⟨?_, ih hys⟩
      intro z hz
      rcases mem_insertDesc.mp hz with rfl | hz
      · exact le_of_lt (lt_of_not_le hgt)
      · exact hy z hz

/-- The stable sort is sorted by descending score. -/
theorem sortDesc_pairwise (l : List Ranked) :
    List.Pairwise (fun a b => b.score ≤ a.score) (sortDesc l) := by
  induction l with
  | nil => simp [sortDesc]
  | cons x xs ih => exact insertDesc_pairwise x ih

/-- Stability of the insertion step: restricted to any one score value, an
insertion either prepends the new element (when it has that score) or
leaves the selection untouched, because every element the insertion walks
past has a strictly larger score. -/
theorem filter_insertDesc (s : Rat) (x : Ranked) (l : List Ranked) :
    (insertDesc x l).filter (fun e => decide (e.score = s)) =
      if x.score = s then
        x :: l.filter (fun e => decide (e.score = s))
      else l.filter (fun e => decide (e.score = s)) := by
  induction l with
  | nil =>
    rw [insertDesc]
    by_cases hx : x.score = s <;> simp [hx]
  | cons y ys ih =>
    rw [insertDesc]
    split
    · rename_i hle
      by_cases hx : x.score = s <;> simp [List.filter_cons, hx]
    · rename_i hgt
      by_cases hx : x.score = s
      · have hy : ¬ (y.score = s) := fun hy =>
          hgt (le_of_eq (hy.trans hx.symm))
        simp [List.filter_cons, hy, ih, hx]
      · simp [List.filter_cons, ih, hx]

/-- Stability of the sort: for every score value, the sorted list and the
input list select the same elements in the same order, i.e. ties keep
their original enumeration order. -/
theorem sortDesc_filter (s : Rat) (l : List Ranked) :
    (sortDesc l).filter (fun e => decide (e.score = s)) =
      l.filter (fun e => decide (e.score = s)) := by
  induction l with
  | nil => rfl
  | cons x xs ih =>
    rw [sortDesc, filter_insertDesc]
    split_ifs with hx <;> simp [List.filter_cons, hx, ih]

/-- Either branch of the Python slice takes a prefix. -/
theorem pySliceTo_sublist {α : Type} (n : Int) (l : List α) :
    (pySliceTo n l).Sublist l := by
  rw [pySliceTo]
  split <;> exact List.take_sublist _ _

/-- A nonnegative slice bound caps the length. -/
theorem pySliceTo_length_le {α : Type} {n : Int} (hn : 0 ≤ n) (l : List α) :
    (pySliceTo n l).length ≤ n.toNat := by
  simp [pySliceTo, if_pos hn]

/-- Slicing to zero empties the list. -/
theorem pySliceTo_zero {α : Type} (l : List α) : pySliceTo 0 l = [] := by
  simp [pySliceTo]

/-- A negative slice bound drops that many elements from the end. -/
theorem pySliceTo_neg_length {α : Type} {n : Int} (hn : n < 0) (l : List α) :
    (pySliceTo n l).length = l.length - (-n).toNat := by
  rw [pySliceTo, if_neg (by omega)]
  simp [List.length_take]

/-- A donor the eligibility filter passes is available: the very first
check of `is_eligible` fails on an unavailable donor. -/
theorem is_eligible_isAvailable {today : PyDate} {tdays : Int} {d : Donor}
    {a : Int} {w : Rat} {b c : Int}
    (h : is_eligible today tdays d a w b c = true) :
    d.is_available = true := by
  cases hav : d.is_available
  · rw [is_eligible] at h
    simp [hav] at h
  · rfl

/-- Inverting a successful run of the candidate-loop body: the entry's
donor is the scanned donor, the eligibility filter passed, and the entry's
distance is within the cut-off. -/
theorem candidate_entry_some {distf : Rat → Rat → Rat → Rat → Rat}
    {today : PyDate} {tdays : Int} {compat : List String}
    {rlat rlon mdist : Rat} {d : Donor} {e : Ranked}
    (h : candidate_entry distf today tdays compat rlat rlon mdist d = some e) :
    e.donor = d ∧ is_eligible today tdays d 90 50 18 65 = true ∧
      e.dist ≤ mdist := by
  rw [candidate_entry] at h
  split at h
  · exact absurd h (by simp)
  split at h
  · exact absurd h (by simp)
  rename_i hcomp helig
  rcases hla : d.latitude with _ | dlat <;> rw [hla] at h
  · exact absurd h (by simp)
  rcases hlo : d.longitude with _ | dlon <;> rw [hlo] at h
  · exact absurd h (by simp)
  simp only [] at h
  split at h
  · exact absurd h (by simp)
  rename_i hdist
  rw [Option.some_inj] at h
  subst h
  refine ⟨rfl, by simpa using helig, le_of_not_lt hdist⟩

/-- Every candidate comes from running the loop body on some donor of the
pool. -/
theorem mem_rank_candidates {donors : List Donor}
    {distf : Rat → Rat → Rat → Rat → Rat} {today : PyDate} {tdays : Int}
    {g : String} {rlat rlon mdist : Rat} {e : Ranked}
    (h : e ∈ rank_candidates donors distf today tdays g rlat rlon mdist) :
    ∃ compat d, d ∈ donors ∧
      candidate_entry distf today tdays compat rlat rlon mdist d = some e := by
  rw [rank_candidates] at h
  split at h
  · exact absurd h (by simp)
  rename_i rc heq
  split at h
  · exact absurd h (by simp)
  obtain ⟨d, hd, hf⟩ := List.mem_filterMap.mp h
  exact ⟨compatible_groups rc, d, hd, hf⟩

/-- The facts about any candidate used by the claims: its distance is
within the cut-off and its donor is available and drawn from the pool. -/
theorem rank_candidates_facts {donors : List Donor}
    {distf : Rat → Rat → Rat → Rat → Rat} {today : PyDate} {tdays : Int}
    {g : String} {rlat rlon mdist : Rat} {e : Ranked}
    (h : e ∈ rank_candidates donors distf today tdays g rlat rlon mdist) :
    e.dist ≤ mdist ∧ e.donor.is_available = true ∧ e.donor ∈ donors := by
  obtain ⟨compat, d, hd, hf⟩ := mem_rank_candidates h
  obtain ⟨hdonor, helig, hdist⟩ := candidate_entry_some hf
  subst hdonor
  exact ⟨hdist, is_eligible_isAvailable helig, hd⟩

/-- Every returned entry is a candidate. -/
theorem mem_find_best_donors {donors : List Donor}
    {distf : Rat → Rat → Rat → Rat → Rat} {today : PyDate} {tdays : Int}
    {g : String} {rlat rlon : Rat} {mr : Int} {mdist : Rat} {e : Ranked}
    (h : e ∈ find_best_donors donors distf today tdays g rlat rlon mr mdist) :
    e ∈ rank_candidates donors distf today tdays g rlat rlon mdist := by
  rw [find_best_donors] at h
  exact (sortDesc_perm _).mem_iff.mp ((pySliceTo_sublist _ _).subset h)

/-- Check-then-insert preserves the one-row-per-pair invariant. -/
theorem add_if_absent_pairwise {notifs : List Notification}
    (h : AtMostOnePerPair notifs) (n : Notification) :
    AtMostOnePerPair (add_if_absent notifs n) := by
  rw [add_if_absent]
  split
  · exact h
  · rename_i hany
    rw [AtMostOnePerPair, List.pairwise_append]
    refine ⟨h, List.pairwise_singleton _ _, ?_⟩
    intro a ha b hb hcontra
    rw [List.mem_singleton] at hb
    subst hb
    exact hany
      (List.any_eq_true.mpr
        ⟨a, ha, by simp [sameTarget, hcontra.1, hcontra.2]⟩)

/-- The shared ranked-donor notification loop preserves the invariant. -/
theorem notify_loop_pairwise (req_id : Nat) (excluded : Option Nat)
    (ntype : String) (ranked : List Nat) :
    ∀ notifs, AtMostOnePerPair notifs →
      AtMostOnePerPair (notify_loop req_id excluded ntype ranked notifs) := by
  induction ranked with
  | nil =>
    intro notifs h
    rw [notify_loop]
    exact h
  | cons did rest ih =>
    intro notifs h
    rw [notify_loop]
    split
    · exact ih notifs h
    · exact ih _ (add_if_absent_pairwise h _)

/-- The proximity scan preserves the invariant. -/
theorem donor_share_notify_pairwise (distf : Rat → Rat → Rat → Rat → Rat)
    (donor_id : Nat) (bg : String) (dlat dlon : Rat)
    (open_reqs : List OpenRequest) :
    ∀ notifs, AtMostOnePerPair notifs →
      AtMostOnePerPair
        (donor_share_notify distf donor_id bg dlat dlon open_reqs notifs) := by
  induction open_reqs with
  | nil =>
    intro notifs h
    exact h
  | cons br rest ih =>
    intro notifs h
    rw [donor_share_notify, List.foldl_cons, ← donor_share_notify]
    refine ih _ ?_
    cases canonical_blood bg with
    | none => exact h
    | some c =>
      dsimp only
      split
      · exact add_if_absent_pairwise h _
      · exact h

/-! ## Claim theorems -/

/-- C3, counterexample: cancelling an ACCEPTED request leaves
`accepted_donor_id` set while the status becomes CANCELLED, so the
invariant is not preserved by `cancel_request`. -/
theorem C3_counterexample :
    RequestInv acceptedReq ∧ ¬ RequestInv (cancel_request acceptedReq) := by
  decide

/-- C3, amended: the accepted-donor/status invariant is preserved by
accept, cancel-assignment, mark-reached, mark-completed, reassign and
create; hospital cancel preserves it only when no donor is assigned. -/
theorem C3_invariant_preservation (br : Request) (donor_id now : Nat)
    (h : RequestInv br) :
    RequestInv (accept_request br donor_id now).1 ∧
    RequestInv (cancel_assignment br donor_id).1 ∧
    RequestInv (hospital_mark_reached br).1 ∧
    RequestInv (hospital_mark_completed br).1 ∧
    RequestInv (hospital_reassign br).1 ∧
    RequestInv create_request ∧
    (br.accepted_donor_id = none → RequestInv (cancel_request br)) := by
  refine ⟨?_, ?_, ?_, ?_, ?_, ?_, ?_⟩
  · rw [accept_request]
    split
    · exact h
    · intro _
      left
      rfl
  · rw [cancel_assignment]
    split
    · exact h
    · intro hne
      exact absurd rfl hne
  · rw [hospital_mark_reached]
    split
    · exact h
    · intro _
      right
      left
      rfl
  · rw [hospital_mark_completed]
    split
    · exact h
    · intro _
      right
      right
      rfl
  · rw [hospital_reassign]
    split
    · exact h
    · exact h
  · intro hne
    exact absurd rfl hne
  · intro hnone hne
    exact absurd hnone hne

/-- Witness for C3 at a concrete OPEN request. -/
theorem C3_invariant_preservation_witness :
    RequestInv (accept_request openReq 1 2).1 ∧
    RequestInv (cancel_assignment openReq 1).1 ∧
    RequestInv (hospital_mark_reached openReq).1 ∧
    RequestInv (hospital_mark_completed openReq).1 ∧
    RequestInv (hospital_reassign openReq).1 ∧
    RequestInv create_request ∧
    (openReq.accepted_donor_id = none → RequestInv (cancel_request openReq)) :=
  C3_invariant_preservation openReq 1 2 (by decide)

/-- C4, counterexample: `cancel_request` moves a FULFILLED request to
CANCELLED and `hospital_mark_reached` moves it to DONOR_REACHED, so
FULFILLED is not terminal. -/
theorem C4_counterexample :
    fulfilledReq.status = "FULFILLED" ∧
    (cancel_request fulfilledReq).status = "CANCELLED" ∧
    (hospital_mark_reached fulfilledReq).1.status = "DONOR_REACHED" := by
  decide

/-- C4, amended: of the lifecycle operations, only accept and reassign are
guarded on terminal status (both fail with no state change); hospital
cancel always lands in CANCELLED, and mark-reached, mark-completed and
cancel-assignment move a terminal request whenever their donor guard
passes. -/
theorem C4_terminal_guards (br : Request) (donor_id now : Nat)
    (h : br.status = "FULFILLED" ∨ br.status = "CANCELLED") :
    accept_request br donor_id now = (br, false) ∧
    hospital_reassign br = (br, false) ∧
    (cancel_request br).status = "CANCELLED" ∧
    (optIdTruthy br.accepted_donor_id = true →
      (hospital_mark_reached br).1.status = "DONOR_REACHED" ∧
      (hospital_mark_completed br).1.status = "FULFILLED") ∧
    (br.accepted_donor_id = some donor_id →
      (cancel_assignment br donor_id).1.status = "OPEN") := by
  have hnotopen : br.status ≠ "OPEN" := by
    rcases h with h | h <;> rw [h] <;> decide
  refine ⟨?_, ?_, rfl, ?_, ?_⟩
  · rw [accept_request, if_pos hnotopen]
  · rw [hospital_reassign, if_pos h.symm]
  · intro ht
    rw [hospital_mark_reached, if_neg (by simp [ht]),
      hospital_mark_completed, if_neg (by simp [ht])]
    exact ⟨rfl, rfl⟩
  · intro ha
    rw [cancel_assignment, if_neg (by simp [ha])]

/-- Witness for C4 at a concrete FULFILLED request. -/
theorem C4_terminal_guards_witness :
    accept_request fulfilledReq 1 9 = (fulfilledReq, false) ∧
    hospital_reassign fulfilledReq = (fulfilledReq, false) ∧
    (cancel_request fulfilledReq).status = "CANCELLED" ∧
    (optIdTruthy fulfilledReq.accepted_donor_id = true →
      (hospital_mark_reached fulfilledReq).1.status = "DONOR_REACHED" ∧
      (hospital_mark_completed fulfilledReq).1.status = "FULFILLED") ∧
    (fulfilledReq.accepted_donor_id = some 1 →
      (cancel_assignment fulfilledReq 1).1.status = "OPEN") :=
  C4_terminal_guards fulfilledReq 1 9 (Or.inl rfl)

/-- C7: accept succeeds exactly on OPEN requests, recording the donor,
the ACCEPTED status and the assignment timestamp; on any other status it
fails and the request is unchanged. -/
theorem C7_accept_guard (br : Request) (donor_id now : Nat) :
    (br.status = "OPEN" →
      accept_request br donor_id now =
        ({ status := "ACCEPTED", accepted_donor_id := some donor_id,
           assigned_at := some now }, true)) ∧
    (br.status ≠ "OPEN" → accept_request br donor_id now = (br, false)) := by
  constructor
  · intro h
    rw [accept_request, if_neg (by simp [h])]
  · intro h
    rw [accept_request, if_pos h]

/-- Witness for C7 at an OPEN and a FULFILLED request. -/
theorem C7_accept_guard_witness :
    accept_request openReq 3 7 =
      ({ status := "ACCEPTED", accepted_donor_id := some 3,
         assigned_at := some 7 }, true) ∧
    accept_request fulfilledReq 3 7 = (fulfilledReq, false) :=
  ⟨(C7_accept_guard openReq 3 7).1 rfl,
   (C7_accept_guard fulfilledReq 3 7).2 (by decide)⟩

/-- C10: on an OPEN request, accept succeeds for any donor whatsoever and
records that donor — the operation takes only the request, the donor id
and the time, so no compatibility, eligibility, distance or
prior-notification check can occur. -/
theorem C10_accept_no_eligibility_check (br : Request) (donor_id now : Nat)
    (h : br.status = "OPEN") :
    (accept_request br donor_id now).2 = true ∧
    (accept_request br donor_id now).1.accepted_donor_id = some donor_id ∧
    (accept_request br donor_id now).1.status = "ACCEPTED" := by
  rw [accept_request, if_neg (by simp [h])]
  exact ⟨rfl, rfl, rfl⟩

/-- Witness for C10 at a concrete OPEN request and an arbitrary donor. -/
theorem C10_accept_no_eligibility_check_witness :
    (accept_request openReq 42 7).2 = true ∧
    (accept_request openReq 42 7).1.accepted_donor_id = some 42 ∧
    (accept_request openReq 42 7).1.status = "ACCEPTED" :=
  C10_accept_no_eligibility_check openReq 42 7 rfl

/-- C5: the compatibility table is exactly the specified one, O- donates
into every tabulated group, AB+ accepts all eight groups, and a requested
group outside the table degrades to exact match only. -/
theorem C5_compatibility_table :
    (COMPATIBILITY "O-" = some ["O-"] ∧
     COMPATIBILITY "O+" = some ["O-", "O+"] ∧
     COMPATIBILITY "A-" = some ["O-", "A-"] ∧
     COMPATIBILITY "A+" = some ["O-", "O+", "A-", "A+"] ∧
     COMPATIBILITY "B-" = some ["O-", "B-"] ∧
     COMPATIBILITY "B+" = some ["O-", "O+", "B-", "B+"] ∧
     COMPATIBILITY "AB-" = some ["O-", "A-", "B-", "AB-"] ∧
     COMPATIBILITY "AB+" = some canonicalGroups) ∧
    (∀ g ∈ canonicalGroups, "O-" ∈ compatible_groups g) ∧
    compatible_groups "AB+" = canonicalGroups ∧
    (∀ g, COMPATIBILITY g = none → compatible_groups g = [g]) := by
  refine ⟨by decide, by decide, by decide, ?_⟩
  intro g hg
  rw [compatible_groups, hg, Option.getD_none]

/-- Witness for C5: O- can serve an AB- request, and an unknown group
falls back to exact match. -/
theorem C5_compatibility_table_witness :
    "O-" ∈ compatible_groups "AB-" ∧ compatible_groups "XQ+" = ["XQ+"] :=
  ⟨C5_compatibility_table.2.1 "AB-" (by decide),
   C5_compatibility_table.2.2.2 "XQ+" (by decide)⟩

/-- C1, counterexample: a donor with `consent = false` and
`health_clearance = false` is returned by `find_best_donors`, because the
matching-engine eligibility filter reads neither field. -/
theorem C1_counterexample :
    donorNoConsent.consent = false ∧
    donorNoConsent.health_clearance = false ∧
    donorNoConsent ∈
      (find_best_donors [donorNoConsent] zeroDist refDate 0 "A+" 0 0 10
        60).map Ranked.donor := by
  decide

/-- C1, amended: a donor with `is_available = false` never appears in the
output of `find_best_donors`, for any donor pool, distance function,
evaluation date, requested group, coordinates, result bound and distance
bound; `consent` and `health_clearance` are not checked by the ranking
filter. -/
theorem C1_unavailable_never_ranked (donors : List Donor)
    (distf : Rat → Rat → Rat → Rat → Rat) (today : PyDate) (tdays : Int)
    (g : String) (rlat rlon : Rat) (mr : Int) (mdist : Rat) (e : Ranked)
    (h : e ∈ find_best_donors donors distf today tdays g rlat rlon mr mdist) :
    e.donor.is_available = true :=
  (rank_candidates_facts (mem_find_best_donors h)).2.1

/-- Witness for C1 at a concrete one-donor pool. -/
theorem C1_unavailable_never_ranked_witness :
    (⟨donorUniversal, 0, 10⟩ : Ranked).donor.is_available = true :=
  C1_unavailable_never_ranked [donorUniversal] zeroDist refDate 0 "O-" 0 0
    10 60 ⟨donorUniversal, 0, 10⟩ (by decide)

/-- C2, counterexample: a nonempty input that does not resolve to a
canonical group is returned as-is, not as null. -/
theorem C2_counterexample :
    canonical_blood "Q" = some "Q" ∧ "Q" ∉ canonicalGroups := by
  decide

/-- C2, amended: `canonical_blood` returns null exactly for the empty
input; every nonempty input yields some rewritten string, with no check
that it is canonical (each of the eight canonical groups maps to
itself). -/
theorem C2_normalizer_null_only_for_empty :
    (∀ s : String, canonical_blood s = none ↔ s = "") ∧
    (∀ g ∈ canonicalGroups, canonical_blood g = some g) := by
  constructor
  · intro s
    constructor
    · intro h
      by_contra hs
      rw [canonical_blood, if_neg hs] at h
      exact absurd h (by simp)
    · intro h
      subst h
      rfl
  · decide

/-- Witness for C2 at the empty string and a canonical group. -/
theorem C2_normalizer_null_only_for_empty_witness :
    canonical_blood "" = none ∧ canonical_blood "AB-" = some "AB-" :=
  ⟨(C2_normalizer_null_only_for_empty.1 "").mpr rfl,
   C2_normalizer_null_only_for_empty.2 "AB-" (by decide)⟩

/-- C6, counterexample: with a negative `max_results` the Python slice
drops entries from the end instead of returning the empty list, so a pool
with two matching donors yields a nonempty result for `max_results =
-1`. -/
theorem C6_counterexample :
    ((-1 : Int) ≤ 0) ∧
    find_best_donors [donorNoConsent, donorUniversal] zeroDist refDate 0
      "A+" 0 0 (-1) 60 ≠ [] := by
  decide

/-- C6, amended: the ranking output is sorted by descending score with
ties kept in candidate (donor enumeration) order; no returned entry
exceeds the distance bound; a nonnegative `max_results` caps the length,
and `max_results = 0` yields the empty list; a negative `max_results`
instead drops that many entries from the end of the sorted candidate
list (Python slice semantics), so the result can be nonempty. -/
theorem C6_ranking_output (donors : List Donor)
    (distf : Rat → Rat → Rat → Rat → Rat) (today : PyDate) (tdays : Int)
    (g : String) (rlat rlon : Rat) (mr : Int) (mdist : Rat) :
    List.Pairwise (fun a b => b.score ≤ a.score)
      (find_best_donors donors distf today tdays g rlat rlon mr mdist) ∧
    (∀ s : Rat,
      (sortDesc
          (rank_candidates donors distf today tdays g rlat rlon
            mdist)).filter (fun e => decide (e.score = s)) =
        (rank_candidates donors distf today tdays g rlat rlon mdist).filter
          (fun e => decide (e.score = s))) ∧
    (∀ e ∈ find_best_donors donors distf today tdays g rlat rlon mr mdist,
      e.dist ≤ mdist) ∧
    (0 ≤ mr →
      (find_best_donors donors distf today tdays g rlat rlon mr
        mdist).length ≤ mr.toNat) ∧
    (mr = 0 →
      find_best_donors donors distf today tdays g rlat rlon mr mdist = []) ∧
    (mr < 0 →
      (find_best_donors donors distf today tdays g rlat rlon mr
          mdist).length =
        (rank_candidates donors distf today tdays g rlat rlon mdist).length -
          (-mr).toNat) := by
  refine ⟨?_, ?_, ?_, ?_, ?_, ?_⟩
  · rw [find_best_donors]
    exact List.Pairwise.sublist (pySliceTo_sublist _ _) (sortDesc_pairwise _)
  · intro s
    exact sortDesc_filter s _
  · intro e he
    exact (rank_candidates_facts (mem_find_best_donors he)).1
  · intro hmr
    rw [find_best_donors]
    exact pySliceTo_length_le hmr _
  · intro hmr
    subst hmr
    rw [find_best_donors]
    exact pySliceTo_zero _
  · intro hmr
    rw [find_best_donors, pySliceTo_neg_length hmr, (sortDesc_perm _).length_eq]

/-- Witness for C6 at concrete pools and result bounds. -/
theorem C6_ranking_output_witness :
    (⟨donorUniversal, 0, 10⟩ : Ranked).dist ≤ 60 ∧
    find_best_donors [donorUniversal] zeroDist refDate 0 "O-" 0 0 0 60 = [] ∧
    (find_best_donors [donorNoConsent, donorUniversal] zeroDist refDate 0
        "A+" 0 0 (-1) 60).length =
      (rank_candidates [donorNoConsent, donorUniversal] zeroDist refDate 0
          "A+" 0 0 60).length - (-(-1 : Int)).toNat :=
  ⟨(C6_ranking_output [donorUniversal] zeroDist refDate 0 "O-" 0 0 10
      60).2.2.1 ⟨donorUniversal, 0, 10⟩ (by decide),
   (C6_ranking_output [donorUniversal] zeroDist refDate 0 "O-" 0 0 0
      60).2.2.2.2.1 rfl,
   (C6_ranking_output [donorNoConsent, donorUniversal] zeroDist refDate 0
      "A+" 0 0 (-1) 60).2.2.2.2.2 (by decide)⟩

/-- C8: every notification-creating operation checks for an existing row
for the (donor, request) pair before inserting, so each preserves the
at-most-one-row-per-pair invariant, including two sequential
ranking/notification runs. -/
theorem C8_notification_dedup (notifs : List Notification)
    (req_id cancelled : Nat) (ranked ranked2 : List Nat)
    (distf : Rat → Rat → Rat → Rat → Rat) (donor_id : Nat) (bg : String)
    (dlat dlon : Rat) (open_reqs : List OpenRequest)
    (h : AtMostOnePerPair notifs) :
    AtMostOnePerPair (request_blood_notify req_id ranked notifs) ∧
    AtMostOnePerPair (cancel_assignment_notify req_id cancelled ranked notifs) ∧
    AtMostOnePerPair (hospital_reassign_notify req_id ranked notifs) ∧
    AtMostOnePerPair
      (donor_share_notify distf donor_id bg dlat dlon open_reqs notifs) ∧
    AtMostOnePerPair
      (hospital_reassign_notify req_id ranked2
        (request_blood_notify req_id ranked notifs)) :=
  ⟨notify_loop_pairwise _ _ _ _ _ h, notify_loop_pairwise _ _ _ _ _ h,
   notify_loop_pairwise _ _ _ _ _ h,
   donor_share_notify_pairwise _ _ _ _ _ _ _ h,
   notify_loop_pairwise _ _ _ _ _ (notify_loop_pairwise _ _ _ _ _ h)⟩

/-- Witness for C8: a rerun over a ranked list with a repeated donor id,
starting from the empty table. -/
theorem C8_notification_dedup_witness :
    AtMostOnePerPair (request_blood_notify 7 [1, 2, 1] []) :=
  (C8_notification_dedup [] 7 9 [1, 2, 1] [1] zeroDist 1 "A+" 0 0 []
    List.Pairwise.nil).1

end RapidRed
